import Mathlib

/-!
Verification of the task-lifecycle core of `vines_worker_sdk.conductor.ConductorClient`
(file `src/vines_worker_sdk/conductor/__init__.py`).

The Python client is shallowly embedded as pure Lean functions:
* JSON values are a mutual inductive `Json`; Python's `json.dumps` (default
  separators `", "`/`": "`, `ensure_ascii=True`) is `Json.dumps`, and Python
  truthiness is `Json.truthy`.
* The external world (the Conductor server's `parentWorkflowId` responses, the
  Redis cache, poll responses, and whether the report `POST` succeeds) is a
  `World` record of pure functions; `json.loads` of a cached string is modelled
  by storing the decoded `Json` value in the cache directly.
* Observable side effects (cache reads, OSS uploads, report sends started,
  report sends delivered, thread dispatches, sleeps) accumulate in `Effects`.
* A Python exception propagating out of a call is an `Option Err` / `Except Err`
  result; the unbounded parent-chain `while` loop is fuel-indexed, with `none`
  standing for divergence.
-/

set_option autoImplicit false

namespace Vines

/-! ## JSON values, Python truthiness and `json.dumps` -/

mutual

inductive Json where
  | null
  | bool (b : Bool)
  | num (n : Int)
  | str (s : String)
  | arr (xs : JsonList)
  | obj (kvs : JsonObj)

inductive JsonList where
  | nil
  | cons (hd : Json) (tl : JsonList)

inductive JsonObj where
  | nil
  | cons (k : String) (v : Json) (tl : JsonObj)

end

def JsonList.isEmpty : JsonList → Bool
  | .nil => true
  | .cons _ _ => false

def JsonObj.isEmpty : JsonObj → Bool
  | .nil => true
  | .cons _ _ _ => false

/-- Python truthiness (`if output_data:` etc.): `None`, `False`, `0`, `""`,
`[]` and `\x7b\x7d` are falsy, everything else truthy. -/
def Json.truthy : Json → Bool
  | .null => false
  | .bool b => b
  | .num n => n != 0
  | .str s => !s.isEmpty
  | .arr xs => !xs.isEmpty
  | .obj kvs => !kvs.isEmpty

/-- Lower-case hex digit, for `\uXXXX` escapes. -/
def hexDigit (n : Nat) : Char :=
  if n < 10 then Char.ofNat (48 + n) else Char.ofNat (87 + n)

def hex4 (n : Nat) : String :=
  String.mk [hexDigit (n / 4096 % 16), hexDigit (n / 256 % 16),
             hexDigit (n / 16 % 16), hexDigit (n % 16)]

/-- One character of `json.dumps`'s default ASCII string escaping: `"` and `\`
are backslash-escaped, the usual control shorthands apply, all other control
characters and every code point above `~` become `\uXXXX` (surrogate pairs
beyond the BMP). -/
def escapeChar (c : Char) : String :=
  if c = '"' then "\\\""
  else if c = '\\' then "\\\\"
  else if c = '\n' then "\\n"
  else if c = '\r' then "\\r"
  else if c = '\t' then "\\t"
  else if c.toNat = 8 then "\\b"
  else if c.toNat = 12 then "\\f"
  else if c.toNat < 32 then "\\u" ++ hex4 c.toNat
  else if c.toNat < 127 then String.mk [c]
  else if c.toNat < 65536 then "\\u" ++ hex4 c.toNat
  else
    "\\u" ++ hex4 (55296 + (c.toNat - 65536) / 1024) ++
    "\\u" ++ hex4 (56320 + (c.toNat - 65536) % 1024)

def escapeString (s : String) : String :=
  String.join (s.data.map escapeChar)

mutual

/-- `json.dumps` with its default arguments (item separator `", "`, key
separator `": "`, `ensure_ascii=True`). Dict/list braces are rendered with
their code points. -/
def Json.dumps : Json → String
  | .null => "null"
  | .bool true => "true"
  | .bool false => "false"
  | .num n => toString n
  | .str s => "\"" ++ escapeString s ++ "\""
  | .arr xs => "[" ++ JsonList.dumpsItems xs ++ "]"
  | .obj kvs => "\x7b" ++ JsonObj.dumpsItems kvs ++ "\x7d"

def JsonList.dumpsItems : JsonList → String
  | .nil => ""
  | .cons x .nil => Json.dumps x
  | .cons x tl => Json.dumps x ++ ", " ++ JsonList.dumpsItems tl

def JsonObj.dumpsItems : JsonObj → String
  | .nil => ""
  | .cons k v .nil => "\"" ++ escapeString k ++ "\": " ++ Json.dumps v
  | .cons k v tl =>
    "\"" ++ escapeString k ++ "\": " ++ Json.dumps v ++ ", " ++ JsonObj.dumpsItems tl

end

/-! ## Errors (Python exceptions) -/

/-- The exceptions the embedded code can raise.  The spec's taxonomy calls
`invalidStatus` "InvalidStatusError" and `contextNotFound`
"ContextNotFoundError"; in the source both are plain `Exception`s with the
messages below. -/
inductive Err where
  | invalidStatus
  | contextNotFound (root : String)
  | handlerError (msg : String)
  | transportError
  | keyError (k : String)

/-- Python's `str(e)` for each modelled exception. `transportError` stands for
an opaque `requests` exception message; `keyError`'s `str` is the repr of the
missing key. -/
def Err.pyStr : Err → String
  | .invalidStatus => "status must be COMPLETED or FAILED"
  | .contextNotFound root => "无法获取 workflow context for workflowInstanceId=" ++ root
  | .handlerError msg => msg
  | .transportError => "connection error"
  | .keyError k => "'" ++ k ++ "'"

/-! ## Data model -/

/-- A task pulled from Conductor, restricted to the fields the lifecycle core
reads (`task.get('taskId')`, `task.get('workflowInstanceId')`). -/
structure Task where
  taskId : String
  workflowInstanceId : String

/-- The `body` dict built by `update_task_result` and POSTed to `/tasks`.
Optional keys of the Python dict are `Option` fields (`none` = key absent). -/
structure ReportBody where
  workflowInstanceId : String
  taskId : String
  status : String
  workerId : String
  outputData : Option Json
  externalOutputPayloadStoragePath : Option String
  reasonForIncompletion : Option String
  callbackAfterSeconds : Option Int

/-- Accumulated observable side effects: Redis `get` keys read, OSS uploads
(key, serialized bytes as a UTF-8 string), report sends started
(`requests.post` calls entered, whether or not they succeed), report sends
delivered, threads dispatched by the poll loop, and `time.sleep` calls. -/
structure Effects where
  cacheReads : List String
  uploads : List (String × String)
  postAttempts : List ReportBody
  posts : List ReportBody
  dispatches : List (String × Task)
  sleeps : Nat

def effects0 : Effects :=
  { cacheReads := [], uploads := [], postAttempts := [], posts := [],
    dispatches := [], sleeps := 0 }

/-- The external collaborators, as pure oracles: the Conductor server's
`GET /workflow/id` parent field, the Redis cache (decoded values), the poll
endpoint per task type (`pollOk t = false` models a transport/parse exception),
and whether a `POST /tasks` report call succeeds. -/
structure World where
  parentWorkflowId : String → Option String
  redis : String → Option Json
  pollOk : String → Bool
  pollResult : String → List Task
  postOk : Bool

/-- The constructor arguments of `ConductorClient` that the lifecycle core
reads (`worker_name_prefix` is shortened to `worker_name_pfx`). -/
structure ClientConfig where
  conductor_base_url : String
  worker_id : String
  poll_interval_ms : Nat
  task_output_payload_size_threshold_kb : Nat
  worker_name_pfx : Option String

/-- Mutable instance state: the in-flight registry `self.tasks`, a dict from
task id to task, modelled as an association list with dict semantics. -/
structure ClientState where
  tasks : List (String × Task)

/-! ## Python dict operations on association lists -/

def dictLookup {α : Type} : List (String × α) → String → Option α
  | [], _ => none
  | (k2, v) :: rest, k => if k2 = k then some v else dictLookup rest k

/-- `d[k] = v`: replace in place if the key exists, else append. -/
def dictInsert {α : Type} : List (String × α) → String → α → List (String × α)
  | [], k, v => [(k, v)]
  | (k2, v2) :: rest, k, v =>
    if k2 = k then (k2, v) :: rest else (k2, v2) :: dictInsert rest k v

def dictErase {α : Type} : List (String × α) → String → List (String × α)
  | [], _ => []
  | (k2, v2) :: rest, k => if k2 = k then rest else (k2, v2) :: dictErase rest k

/-- `del d[k]`: raises `KeyError` when the key is absent. -/
def dictDel {α : Type} (l : List (String × α)) (k : String) :
    Except Err (List (String × α)) :=
  if (dictLookup l k).isSome then .ok (dictErase l k) else .error (.keyError k)

/-! ## Handlers and registration -/

/-- Outcome of calling a user handler `callback(task, workflow_context)`:
it returns a value (`ret none` is Python `None`) or raises. -/
inductive HandlerResult where
  | ret (v : Option Json)
  | raise (msg : String)

def Handler : Type := Task → Json → HandlerResult

/-- `if result:` on a Python value that may be `None`. -/
def optTruthy : Option Json → Bool
  | none => false
  | some v => v.truthy

/-- The key a handler is stored under: `if self.worker_name_prefix:` prefixes
the name when the configured prefix is truthy (a non-empty string). -/
def registered_name (cfg : ClientConfig) (name : String) : String :=
  match cfg.worker_name_pfx with
  | some p => if p.isEmpty then name else p ++ name
  | none => name

/-- `register_handler(name, callback)`:
`self.task_types[name] = callback` under the (possibly prefixed) name. -/
def register_handler (cfg : ClientConfig) (task_types : List (String × Handler))
    (name : String) (callback : Handler) : List (String × Handler) :=
  dictInsert task_types (registered_name cfg name) callback

/-! ## Workflow-context resolution -/

def get_workflow_context_cache_key (workflow_instance_id : String) : String :=
  "workflow:context:" ++ workflow_instance_id

/-- `__get_real_workflow_instance_id_start_by_server`: follow
`parentWorkflowId` links until an execution has no parent.  The source's
`while` loop has no cycle guard, so the walk is fuel-indexed here and `none`
models divergence. -/
def get_real_workflow_instance_id (w : World) :
    Nat → String → Option String
  | 0, _ => none
  | fuel + 1, workflow_instance_id =>
    match w.parentWorkflowId workflow_instance_id with
    | some p => get_real_workflow_instance_id w fuel p
    | none => some workflow_instance_id

/-- `get_workflow_context`: resolve the root id, read the cache once under the
root's key, raise when the key is absent, else return the decoded value
(`json.loads` of the cached string is modelled by the cached `Json` itself). -/
def get_workflow_context (w : World) (fuel : Nat) (workflow_instance_id : String)
    (eff : Effects) : Option (Effects × Except Err Json) :=
  match get_real_workflow_instance_id w fuel workflow_instance_id with
  | none => none
  | some root =>
    match w.redis (get_workflow_context_cache_key root) with
    | none =>
      some ({ eff with cacheReads := eff.cacheReads ++ [get_workflow_context_cache_key root] },
            .error (.contextNotFound root))
    | some ctx =>
      some ({ eff with cacheReads := eff.cacheReads ++ [get_workflow_context_cache_key root] },
            .ok ctx)

/-! ## Result reporting (`update_task_result`) -/

/-- The initial `body` dict of `update_task_result` (before the optional
fields): workflow id, task id, status, and this worker's id. -/
def initialBody (cfg : ClientConfig) (workflow_instance_id task_id status : String) :
    ReportBody :=
  { workflowInstanceId := workflow_instance_id, taskId := task_id,
    status := status, workerId := cfg.worker_id,
    outputData := none, externalOutputPayloadStoragePath := none,
    reasonForIncompletion := none, callbackAfterSeconds := none }

/-- The tail of `update_task_result`'s body construction: each optional
argument is added to the dict only when truthy (`if reason_for_incompletion:`
etc.; a truthy `worker_id` overwrites the `workerId` set from `self`). -/
def applyOptional (body : ReportBody) (reason_for_incompletion : Option String)
    (callback_after_seconds : Option Int) (worker_id : Option String) : ReportBody :=
  let body :=
    match reason_for_incompletion with
    | some r => if r.isEmpty then body else { body with reasonForIncompletion := some r }
    | none => body
  let body :=
    match callback_after_seconds with
    | some c => if c = 0 then body else { body with callbackAfterSeconds := some c }
    | none => body
  match worker_id with
  | some wi => if wi.isEmpty then body else { body with workerId := wi }
  | none => body

/-- `update_task_result`.  Raises when the status is not terminal; otherwise
builds the body: a truthy `output_data` is serialized and measured
(`size_in_kb = size / 1024`, compared against the threshold — the `/ 1024` is
exact in binary floating point, so `size / 1024 > t` is rendered as
`t * 1024 < size`), uploaded to OSS and replaced by an empty payload plus the
storage key when over the threshold, else sent inline; truthy optional fields
are added; finally the body is POSTed, which raises iff `w.postOk = false`.
Returns the updated effects and the propagating exception, if any. -/
def update_task_result (cfg : ClientConfig) (w : World) (eff : Effects)
    (workflow_instance_id task_id status : String)
    (output_data : Option Json) (reason_for_incompletion : Option String)
    (callback_after_seconds : Option Int) (worker_id : Option String) :
    Effects × Option Err :=
  if status = "COMPLETED" ∨ status = "FAILED" then
    let body := initialBody cfg workflow_instance_id task_id status
    let step :=
      match output_data with
      | some od =>
        if od.truthy then
          let obj_bytes := od.dumps
          let size := obj_bytes.utf8ByteSize
          if cfg.task_output_payload_size_threshold_kb * 1024 < size then
            let key := "task/output/" ++ task_id ++ ".json"
            ({ eff with uploads := eff.uploads ++ [(key, obj_bytes)] },
             { body with outputData := some (.obj .nil),
                         externalOutputPayloadStoragePath := some key })
          else
            (eff, { body with outputData := some od })
        else (eff, body)
      | none => (eff, body)
    let eff := step.1
    let body := applyOptional step.2 reason_for_incompletion callback_after_seconds worker_id
    let eff := { eff with postAttempts := eff.postAttempts ++ [body] }
    if w.postOk then ({ eff with posts := eff.posts ++ [body] }, none)
    else (eff, some .transportError)
  else (eff, some .invalidStatus)

/-! ## Task executor (`callback_wrapper`) -/

/-- The `output_data` dict the executor's `except` branch reports. -/
def failedOutput (e : Err) : Json :=
  .obj (.cons "success" (.bool false) (.cons "errMsg" (.str e.pyStr) .nil))

/-- The `except Exception as e:` branch of `callback_wrapper.wrapper`: report
FAILED with `failedOutput e`, then `del self.tasks[task_id]`.  An exception
raised by the report call or by the `del` itself propagates out of the
thread. -/
def except_branch (cfg : ClientConfig) (w : World) (task : Task)
    (st : ClientState) (eff : Effects) (e : Err) :
    ClientState × Effects × Option Err :=
  let step := update_task_result cfg w eff task.workflowInstanceId task.taskId
    "FAILED" (some (failedOutput e)) none none none
  match step.2 with
  | some e2 => (st, step.1, some e2)
  | none =>
    match dictDel st.tasks task.taskId with
    | .ok ts => ({ st with tasks := ts }, step.1, none)
    | .error e2 => (st, step.1, some e2)

/-- The `wrapper` closure built by `callback_wrapper(callback, task)` and run
on the task's thread.  `none` means the parent-chain walk inside context
resolution diverges (the source loops forever).  Otherwise returns the final
registry state, the accumulated effects, and the exception escaping the
thread, if any. -/
def callback_wrapper (cfg : ClientConfig) (w : World) (fuel : Nat)
    (callback : Handler) (task : Task) (st : ClientState) (eff : Effects) :
    Option (ClientState × Effects × Option Err) :=
  match get_workflow_context w fuel task.workflowInstanceId eff with
  | none => none
  | some (eff, .error e) => some (except_branch cfg w task st eff e)
  | some (eff, .ok workflow_context) =>
    match callback task workflow_context with
    | .raise msg => some (except_branch cfg w task st eff (.handlerError msg))
    | .ret result =>
      if optTruthy result then
        let step := update_task_result cfg w eff task.workflowInstanceId
          task.taskId "COMPLETED" result none none none
        match step.2 with
        | some e => some (except_branch cfg w task st step.1 e)
        | none =>
          match dictDel st.tasks task.taskId with
          | .ok ts => some ({ st with tasks := ts }, step.1, none)
          | .error e => some (except_branch cfg w task st step.1 e)
      else some (st, eff, none)

/-! ## Poll loop (`start_polling`) -/

/-- One iteration of `for task_type in self.task_types:` in `start_polling`:
poll (a transport/parse failure is swallowed), insert each returned task into
the in-flight registry and dispatch a thread for it, then — still inside the
`for` body — `time.sleep(self.poll_interval_ms / 1000)`. -/
def poll_one_type (w : World) (task_type : String)
    (st : ClientState) (eff : Effects) : ClientState × Effects :=
  let step :=
    if w.pollOk task_type then
      (w.pollResult task_type).foldl
        (fun (p : ClientState × Effects) task =>
          ({ tasks := dictInsert p.1.tasks task.taskId task },
           { p.2 with dispatches := p.2.dispatches ++ [(task_type, task)] }))
        (st, eff)
    else (st, eff)
  (step.1, { step.2 with sleeps := step.2.sleeps + 1 })

/-- One full pass of the infinite `while True:` loop of `start_polling` over
the registered task-type names (in dict order). -/
def polling_pass (w : World) (task_type_names : List String)
    (st : ClientState) (eff : Effects) : ClientState × Effects :=
  task_type_names.foldl (fun p tt => poll_one_type w tt p.1 p.2) (st, eff)

/-! ## Restart recovery (`set_all_tasks_to_failed_state`) -/

/-- The restart `output_data`: `success: false` and the fixed restart
message in `errMsg`. -/
def restartOutput : Json :=
  .obj (.cons "success" (.bool false)
        (.cons "errMsg" (.str "worker 已重启，请重新运行") .nil))

def set_all_go (cfg : ClientConfig) (w : World) :
    List (String × Task) → Effects → Effects × Option Err
  | [], eff => (eff, none)
  | (task_id, task) :: rest, eff =>
    let step := update_task_result cfg w eff task.workflowInstanceId task_id
      "FAILED" (some restartOutput) none none none
    match step.2 with
    | some e => (step.1, some e)
    | none => set_all_go cfg w rest step.1

/-- `set_all_tasks_to_failed_state`: report FAILED for every in-flight task
(an exception from a report call propagates and stops the iteration); the
registry itself is never written. -/
def set_all_tasks_to_failed_state (cfg : ClientConfig) (w : World)
    (st : ClientState) (eff : Effects) : ClientState × Effects × Option Err :=
  let step := set_all_go cfg w st.tasks eff
  (st, step.1, step.2)

/-! ## Report shapes and lemmas about `update_task_result` -/

/-- The body sent when `output_data` is truthy and at or below the threshold:
the payload rides inline and no storage-path key is added. -/
def inlineReport (cfg : ClientConfig) (workflow_instance_id task_id status : String)
    (od : Json) : ReportBody :=
  { initialBody cfg workflow_instance_id task_id status with outputData := some od }

/-- The body sent when `output_data` is truthy and over the threshold: an
empty inline payload plus the deterministic task-id-namespaced storage key. -/
def externalReport (cfg : ClientConfig) (workflow_instance_id task_id status : String) :
    ReportBody :=
  { initialBody cfg workflow_instance_id task_id status with
      outputData := some (.obj .nil),
      externalOutputPayloadStoragePath := some ("task/output/" ++ task_id ++ ".json") }

theorem update_inline_ok (cfg : ClientConfig) (w : World) (eff : Effects)
    (wid tid status : String) (od : Json)
    (hstat : status = "COMPLETED" ∨ status = "FAILED")
    (htruthy : od.truthy = true)
    (hsize : od.dumps.utf8ByteSize ≤ cfg.task_output_payload_size_threshold_kb * 1024)
    (hpost : w.postOk = true) :
    update_task_result cfg w eff wid tid status (some od) none none none =
      ({ eff with
          postAttempts := eff.postAttempts ++ [inlineReport cfg wid tid status od],
          posts := eff.posts ++ [inlineReport cfg wid tid status od] }, none) := by
  unfold update_task_result
  rw [if_pos hstat, hpost]
  simp only [htruthy, if_true]
  rw [if_neg (show ¬ cfg.task_output_payload_size_threshold_kb * 1024 <
    od.dumps.utf8ByteSize from by omega)]
  rfl

theorem update_inline_transport_fail (cfg : ClientConfig) (w : World) (eff : Effects)
    (wid tid status : String) (od : Json)
    (hstat : status = "COMPLETED" ∨ status = "FAILED")
    (htruthy : od.truthy = true)
    (hsize : od.dumps.utf8ByteSize ≤ cfg.task_output_payload_size_threshold_kb * 1024)
    (hpost : w.postOk = false) :
    update_task_result cfg w eff wid tid status (some od) none none none =
      ({ eff with
          postAttempts := eff.postAttempts ++ [inlineReport cfg wid tid status od] },
       some .transportError) := by
  unfold update_task_result
  rw [if_pos hstat, hpost]
  simp only [htruthy, if_true]
  rw [if_neg (show ¬ cfg.task_output_payload_size_threshold_kb * 1024 <
    od.dumps.utf8ByteSize from by omega)]
  rfl

theorem update_external_ok (cfg : ClientConfig) (w : World) (eff : Effects)
    (wid tid status : String) (od : Json)
    (hstat : status = "COMPLETED" ∨ status = "FAILED")
    (htruthy : od.truthy = true)
    (hsize : cfg.task_output_payload_size_threshold_kb * 1024 < od.dumps.utf8ByteSize)
    (hpost : w.postOk = true) :
    update_task_result cfg w eff wid tid status (some od) none none none =
      ({ eff with
          uploads := eff.uploads ++ [("task/output/" ++ tid ++ ".json", od.dumps)],
          postAttempts := eff.postAttempts ++ [externalReport cfg wid tid status],
          posts := eff.posts ++ [externalReport cfg wid tid status] }, none) := by
  unfold update_task_result
  rw [if_pos hstat, hpost]
  simp only [htruthy, if_true]
  rw [if_pos hsize]
  rfl

theorem update_falsy_ok (cfg : ClientConfig) (w : World) (eff : Effects)
    (wid tid status : String) (od : Json)
    (hstat : status = "COMPLETED" ∨ status = "FAILED")
    (htruthy : od.truthy = false)
    (hpost : w.postOk = true) :
    update_task_result cfg w eff wid tid status (some od) none none none =
      ({ eff with
          postAttempts := eff.postAttempts ++ [initialBody cfg wid tid status],
          posts := eff.posts ++ [initialBody cfg wid tid status] }, none) := by
  unfold update_task_result
  rw [if_pos hstat, hpost]
  simp only [htruthy]
  rfl

/-! ## Lemmas about the executor, context resolution and the registry -/

theorem failedOutput_truthy (e : Err) : (failedOutput e).truthy = true := rfl

theorem dictLookup_dictInsert {α : Type} (l : List (String × α)) (k : String) (v : α) :
    dictLookup (dictInsert l k v) k = some v := by
  induction l with
  | nil => simp [dictInsert, dictLookup]
  | cons hd tl ih =>
    by_cases h : hd.1 = k
    · simp [dictInsert, dictLookup, h]
    · simp [dictInsert, dictLookup, h, ih]

/-- The `except` branch when the FAILED report is delivered and the task is
still registered: one report, registry entry erased, no exception. -/
theorem except_branch_ok (cfg : ClientConfig) (w : World) (task : Task)
    (st : ClientState) (eff : Effects) (e : Err)
    (hpost : w.postOk = true)
    (hin : (dictLookup st.tasks task.taskId).isSome = true)
    (hsize : (failedOutput e).dumps.utf8ByteSize ≤
      cfg.task_output_payload_size_threshold_kb * 1024) :
    except_branch cfg w task st eff e =
      ({ st with tasks := dictErase st.tasks task.taskId },
       { eff with
          postAttempts := eff.postAttempts ++
            [inlineReport cfg task.workflowInstanceId task.taskId "FAILED" (failedOutput e)],
          posts := eff.posts ++
            [inlineReport cfg task.workflowInstanceId task.taskId "FAILED" (failedOutput e)] },
       none) := by
  unfold except_branch
  rw [update_inline_ok cfg w eff task.workflowInstanceId task.taskId "FAILED"
    (failedOutput e) (Or.inr rfl) (failedOutput_truthy e) hsize hpost]
  unfold dictDel
  rw [if_pos hin]

/-- The `except` branch when the FAILED report call itself raises: no delivery,
no registry change, the exception propagates. -/
theorem except_branch_transport_fail (cfg : ClientConfig) (w : World) (task : Task)
    (st : ClientState) (eff : Effects) (e : Err)
    (hpost : w.postOk = false)
    (hsize : (failedOutput e).dumps.utf8ByteSize ≤
      cfg.task_output_payload_size_threshold_kb * 1024) :
    except_branch cfg w task st eff e =
      (st,
       { eff with
          postAttempts := eff.postAttempts ++
            [inlineReport cfg task.workflowInstanceId task.taskId "FAILED" (failedOutput e)] },
       some .transportError) := by
  unfold except_branch
  rw [update_inline_transport_fail cfg w eff task.workflowInstanceId task.taskId "FAILED"
    (failedOutput e) (Or.inr rfl) (failedOutput_truthy e) hsize hpost]

/-- A parent chain as the server reports it: consecutive `parentWorkflowId`
links, whose last element has no parent (the root). -/
def isParentChain (w : World) : List String → Prop
  | [] => False
  | [x] => w.parentWorkflowId x = none
  | x :: y :: rest => w.parentWorkflowId x = some y ∧ isParentChain w (y :: rest)

/-- Walking a finite parent chain reaches its last element (the root). -/
theorem get_real_of_chain (w : World) :
    ∀ (chain : List String) (wid : String) (fuel : Nat),
      isParentChain w (wid :: chain) → chain.length < fuel →
      get_real_workflow_instance_id w fuel wid = some (chain.getLastD wid)
  | [], wid, fuel, hchain, hfuel => by
    match fuel, hfuel with
    | fuel + 1, _ =>
      unfold get_real_workflow_instance_id
      rw [show w.parentWorkflowId wid = none from hchain]
      rfl
  | y :: rest, wid, fuel, hchain, hfuel => by
    match fuel, hfuel with
    | fuel + 1, hfuel =>
      unfold get_real_workflow_instance_id
      rw [show w.parentWorkflowId wid = some y from hchain.1, List.getLastD_cons]
      exact get_real_of_chain w rest y fuel hchain.2 (by
        simp only [List.length_cons] at hfuel
        omega)

/-- Context resolution only appends to the cache-read log; every other effect
channel is untouched. -/
theorem get_workflow_context_effects (w : World) (fuel : Nat) (wid : String)
    (eff eff1 : Effects) (r : Except Err Json)
    (h : get_workflow_context w fuel wid eff = some (eff1, r)) :
    eff1.uploads = eff.uploads ∧ eff1.postAttempts = eff.postAttempts ∧
    eff1.posts = eff.posts ∧ eff1.dispatches = eff.dispatches ∧
    eff1.sleeps = eff.sleeps := by
  unfold get_workflow_context at h
  cases hroot : get_real_workflow_instance_id w fuel wid with
  | none => rw [hroot] at h; exact absurd h (by simp)
  | some root =>
    cases hredis : w.redis (get_workflow_context_cache_key root) with
    | none =>
      simp only [hroot, hredis, Option.some.injEq, Prod.mk.injEq] at h
      obtain ⟨h1, h2⟩ := h
      subst h1
      exact ⟨rfl, rfl, rfl, rfl, rfl⟩
    | some ctx =>
      simp only [hroot, hredis, Option.some.injEq, Prod.mk.injEq] at h
      obtain ⟨h1, h2⟩ := h
      subst h1
      exact ⟨rfl, rfl, rfl, rfl, rfl⟩

/-! ## Concrete fixtures used by witnesses and counterexamples -/

def cfgW : ClientConfig :=
  { conductor_base_url := "http://conductor", worker_id := "worker-1",
    poll_interval_ms := 500, task_output_payload_size_threshold_kb := 1024,
    worker_name_pfx := none }

def taskW : Task := { taskId := "t1", workflowInstanceId := "w1" }

def ctxW : Json := .obj .nil

def wW : World :=
  { parentWorkflowId := fun _ => none,
    redis := fun k => if k = "workflow:context:w1" then some ctxW else none,
    pollOk := fun _ => true, pollResult := fun _ => [], postOk := true }

def wFailW : World := { wW with postOk := false }

def wMissW : World := { wW with redis := fun _ => none }

def wChainW : World :=
  { wW with
      parentWorkflowId := fun i =>
        if i = "a" then some "b" else if i = "b" then some "c" else none,
      redis := fun k => if k = "workflow:context:c" then some (.str "ctx") else none }

def stW : ClientState := { tasks := [("t1", taskW)] }

def resW : Json := .obj (.cons "width" (.num 100) .nil)

def cbW : Handler := fun _ _ => .ret (some resW)

/-- The effects after the single successful cache read of `wW` for `w1`. -/
def eff1W : Effects := { effects0 with cacheReads := ["workflow:context:w1"] }

/-! ## Claims -/

/-- C6: for every status outside COMPLETED/FAILED, `update_task_result` raises
the invalid-status error and performs no network call: the returned effects are
exactly the incoming ones — no serialization result is recorded, no OSS upload
happens, and no report POST is started or delivered. -/
theorem c6_invalid_status_no_network (cfg : ClientConfig) (w : World) (eff : Effects)
    (wid tid status : String) (od : Option Json) (rs : Option String)
    (cb : Option Int) (wo : Option String)
    (h1 : status ≠ "COMPLETED") (h2 : status ≠ "FAILED") :
    update_task_result cfg w eff wid tid status od rs cb wo =
      (eff, some .invalidStatus) := by
  unfold update_task_result
  rw [if_neg]
  rintro (h | h)
  · exact h1 h
  · exact h2 h

theorem c6_witness :
    update_task_result cfgW wW effects0 "w1" "t1" "RUNNING" none none none none =
      (effects0, some .invalidStatus) :=
  c6_invalid_status_no_network cfgW wW effects0 "w1" "t1" "RUNNING" none none none none
    (by decide) (by decide)

/-- C4 counterexample: one pass of the polling loop over two registered task
types sleeps twice, not once — `time.sleep` sits inside the per-type `for`
body, so the claim "exactly once per full pass" is false. -/
theorem c4_counterexample :
    (polling_pass wW ["type_a", "type_b"] { tasks := [] } effects0).2.sleeps = 2 ∧
    (polling_pass wW ["type_a", "type_b"] { tasks := [] } effects0).2.sleeps ≠ 1 :=
  ⟨rfl, by decide⟩

theorem dispatch_fold_sleeps (w : World) (task_type : String) :
    ∀ (tasks : List Task) (st : ClientState) (eff : Effects),
      ((tasks.foldl
        (fun (p : ClientState × Effects) task =>
          ({ tasks := dictInsert p.1.tasks task.taskId task },
           { p.2 with dispatches := p.2.dispatches ++ [(task_type, task)] }))
        (st, eff)).2).sleeps = eff.sleeps
  | [], _, _ => rfl
  | t :: ts, st, eff => by
    rw [List.foldl_cons]
    exact dispatch_fold_sleeps w task_type ts _ _

theorem poll_one_type_sleeps (w : World) (task_type : String)
    (st : ClientState) (eff : Effects) :
    (poll_one_type w task_type st eff).2.sleeps = eff.sleeps + 1 := by
  unfold poll_one_type
  cases hok : w.pollOk task_type with
  | false => rfl
  | true =>
    simp only [hok, if_true]
    rw [dispatch_fold_sleeps w task_type (w.pollResult task_type) st eff]

/-- C4 (amended): the sleep happens once per registered task type inside each
pass — a full pass over N task types performs N sleeps of the configured
interval, not a single one. -/
theorem c4_sleep_once_per_task_type (w : World) (task_type_names : List String) :
    ∀ (st : ClientState) (eff : Effects),
      (polling_pass w task_type_names st eff).2.sleeps =
        eff.sleeps + task_type_names.length := by
  induction task_type_names with
  | nil => intro st eff; rfl
  | cons tt tts ih =>
    intro st eff
    unfold polling_pass
    rw [List.foldl_cons]
    have h := ih (poll_one_type w tt st eff).1 (poll_one_type w tt st eff).2
    unfold polling_pass at h
    rw [h, poll_one_type_sleeps, List.length_cons]
    omega

/-- C8: `register_handler` stores the handler under the worker-name-prefixed
name (the bare name when no prefix is configured; an empty-string prefix also
yields the bare name, which equals `"" ++ name`), and a second registration
for the same name overwrites the first — last write wins. -/
theorem c8_register_handler_last_write_wins (cfg : ClientConfig)
    (task_types : List (String × Handler)) (name : String) (h1 h2 : Handler) :
    registered_name cfg name = cfg.worker_name_pfx.getD "" ++ name
    ∧ dictLookup (register_handler cfg task_types name h1)
        (registered_name cfg name) = some h1
    ∧ dictLookup (register_handler cfg (register_handler cfg task_types name h1) name h2)
        (registered_name cfg name) = some h2 := by
  refine ⟨?_, dictLookup_dictInsert _ _ _, dictLookup_dictInsert _ _ _⟩
  unfold registered_name
  cases hp : cfg.worker_name_pfx with
  | none => exact (String.empty_append name).symm
  | some p =>
    show (if p.isEmpty = true then name else p ++ name) = (some p).getD "" ++ name
    by_cases he : p.isEmpty = true
    · rw [if_pos he, (String.isEmpty_iff p).mp he]
      exact (String.empty_append name).symm
    · rw [if_neg he]
      rfl

/-- C5: context resolution walks the parent chain to its root and returns the
value cached under the key built from the root id — for an execution with no
parent (empty chain) that is its own id, for a chain of depth N the depth-N
ancestor's id. -/
theorem c5_context_from_chain_root (w : World) (fuel : Nat) (wid : String)
    (chain : List String) (eff : Effects) (ctx : Json)
    (hchain : isParentChain w (wid :: chain))
    (hfuel : chain.length < fuel)
    (hcache : w.redis (get_workflow_context_cache_key (chain.getLastD wid)) = some ctx) :
    get_workflow_context w fuel wid eff =
      some ({ eff with cacheReads :=
                eff.cacheReads ++ [get_workflow_context_cache_key (chain.getLastD wid)] },
            .ok ctx) := by
  unfold get_workflow_context
  rw [get_real_of_chain w chain wid fuel hchain hfuel]
  simp only [hcache]

theorem c5_witness :
    get_workflow_context wChainW 3 "a" effects0 =
      some ({ effects0 with cacheReads := ["workflow:context:c"] }, .ok (.str "ctx")) :=
  c5_context_from_chain_root wChainW 3 "a" ["b", "c"] effects0 (.str "ctx")
    ⟨rfl, rfl, rfl⟩ (by decide) rfl

/-- C9: a handler that returns a falsy value other than `None` — e.g. the
empty mapping — is treated exactly like a handler returning no value: the
executor takes the asynchronous path, issues no report (no send even started,
no upload) and leaves the in-flight registry untouched. -/
theorem c9_falsy_result_async (cfg : ClientConfig) (w : World) (fuel : Nat)
    (callback callback2 : Handler) (task : Task) (st : ClientState)
    (eff eff1 : Effects) (ctx : Json) (r : Option Json)
    (hctx : get_workflow_context w fuel task.workflowInstanceId eff = some (eff1, .ok ctx))
    (hcb : callback task ctx = .ret r)
    (hfalsy : optTruthy r = false)
    (hcb2 : callback2 task ctx = .ret none) :
    callback_wrapper cfg w fuel callback task st eff = some (st, eff1, none)
    ∧ callback_wrapper cfg w fuel callback2 task st eff = some (st, eff1, none)
    ∧ eff1.uploads = eff.uploads ∧ eff1.postAttempts = eff.postAttempts
    ∧ eff1.posts = eff.posts := by
  obtain ⟨hu, hpa, hp, _, _⟩ :=
    get_workflow_context_effects w fuel task.workflowInstanceId eff eff1 _ hctx
  refine ⟨?_, ?_, hu, hpa, hp⟩
  · unfold callback_wrapper
    simp only [hctx, hcb, hfalsy]
    rfl
  · unfold callback_wrapper
    simp only [hctx, hcb2]
    rfl

def cbEmptyW : Handler := fun _ _ => .ret (some (.obj .nil))

def cbNoneW : Handler := fun _ _ => .ret none

theorem c9_witness :
    callback_wrapper cfgW wW 2 cbEmptyW taskW stW effects0 = some (stW, eff1W, none)
    ∧ callback_wrapper cfgW wW 2 cbNoneW taskW stW effects0 = some (stW, eff1W, none) := by
  have h := c9_falsy_result_async cfgW wW 2 cbEmptyW cbNoneW taskW stW effects0 eff1W
    ctxW (some (.obj .nil)) rfl rfl rfl rfl
  exact ⟨h.1, h.2.1⟩

/-- C1: on the synchronous path (handler returns a truthy mapping) and on the
failure paths (context resolution raises, or the handler raises), the executor
delivers exactly one terminal report — COMPLETED with the handler's result
inline, or FAILED with `success: false` and the stringified error in `errMsg`
— and erases the task from the in-flight registry; never zero and never two
delivered reports.  (Hypotheses: the report POST succeeds, the task is
registered, and the payload fits the inline threshold.) -/
theorem c1_exactly_one_terminal_report (cfg : ClientConfig) (w : World) (fuel : Nat)
    (callback : Handler) (task : Task) (st : ClientState) (eff : Effects)
    (hpost : w.postOk = true)
    (hin : (dictLookup st.tasks task.taskId).isSome = true) :
    (∀ eff1 ctx res,
      get_workflow_context w fuel task.workflowInstanceId eff = some (eff1, .ok ctx) →
      callback task ctx = .ret (some res) → res.truthy = true →
      res.dumps.utf8ByteSize ≤ cfg.task_output_payload_size_threshold_kb * 1024 →
      callback_wrapper cfg w fuel callback task st eff =
        some ({ st with tasks := dictErase st.tasks task.taskId },
          { eff1 with
              postAttempts := eff1.postAttempts ++
                [inlineReport cfg task.workflowInstanceId task.taskId "COMPLETED" res],
              posts := eff1.posts ++
                [inlineReport cfg task.workflowInstanceId task.taskId "COMPLETED" res] },
          none))
    ∧ (∀ eff1 ctx msg,
      get_workflow_context w fuel task.workflowInstanceId eff = some (eff1, .ok ctx) →
      callback task ctx = .raise msg →
      (failedOutput (.handlerError msg)).dumps.utf8ByteSize ≤
        cfg.task_output_payload_size_threshold_kb * 1024 →
      callback_wrapper cfg w fuel callback task st eff =
        some ({ st with tasks := dictErase st.tasks task.taskId },
          { eff1 with
              postAttempts := eff1.postAttempts ++
                [inlineReport cfg task.workflowInstanceId task.taskId "FAILED"
                  (failedOutput (.handlerError msg))],
              posts := eff1.posts ++
                [inlineReport cfg task.workflowInstanceId task.taskId "FAILED"
                  (failedOutput (.handlerError msg))] },
          none))
    ∧ (∀ eff1 e,
      get_workflow_context w fuel task.workflowInstanceId eff = some (eff1, .error e) →
      (failedOutput e).dumps.utf8ByteSize ≤
        cfg.task_output_payload_size_threshold_kb * 1024 →
      callback_wrapper cfg w fuel callback task st eff =
        some ({ st with tasks := dictErase st.tasks task.taskId },
          { eff1 with
              postAttempts := eff1.postAttempts ++
                [inlineReport cfg task.workflowInstanceId task.taskId "FAILED"
                  (failedOutput e)],
              posts := eff1.posts ++
                [inlineReport cfg task.workflowInstanceId task.taskId "FAILED"
                  (failedOutput e)] },
          none)) := by
  refine ⟨?_, ?_, ?_⟩
  · intro eff1 ctx res hctx hcb htr hsz
    unfold callback_wrapper
    simp only [hctx, hcb, optTruthy, htr, if_true]
    rw [update_inline_ok cfg w eff1 task.workflowInstanceId task.taskId "COMPLETED" res
      (Or.inl rfl) htr hsz hpost]
    unfold dictDel
    rw [if_pos hin]
  · intro eff1 ctx msg hctx hcb hsz
    unfold callback_wrapper
    simp only [hctx, hcb]
    rw [except_branch_ok cfg w task st eff1 (.handlerError msg) hpost hin hsz]
  · intro eff1 e hctx hsz
    unfold callback_wrapper
    simp only [hctx]
    rw [except_branch_ok cfg w task st eff1 e hpost hin hsz]

theorem c1_witness :
    callback_wrapper cfgW wW 2 cbW taskW stW effects0 =
      some ({ stW with tasks := dictErase stW.tasks taskW.taskId },
        { eff1W with
            postAttempts := [inlineReport cfgW "w1" "t1" "COMPLETED" resW],
            posts := [inlineReport cfgW "w1" "t1" "COMPLETED" resW] },
        none) :=
  (c1_exactly_one_terminal_report cfgW wW 2 cbW taskW stW effects0 rfl rfl).1
    eff1W ctxW resW rfl rfl rfl (by decide)

/-- C7: when the resolved root workflow id has no entry in the key-value
cache, context resolution reads the cache exactly once (no retry) and raises
the context-not-found error; inside the executor this surfaces as a single
FAILED report for the current task (with the stringified error in `errMsg`)
and the task's removal from the in-flight registry. -/
theorem c7_context_miss_failed_report (cfg : ClientConfig) (w : World) (fuel : Nat)
    (callback : Handler) (task : Task) (st : ClientState) (eff : Effects)
    (hroot : w.parentWorkflowId task.workflowInstanceId = none)
    (hmiss : w.redis (get_workflow_context_cache_key task.workflowInstanceId) = none)
    (hfuel : 0 < fuel)
    (hpost : w.postOk = true)
    (hin : (dictLookup st.tasks task.taskId).isSome = true)
    (hsize : (failedOutput (.contextNotFound task.workflowInstanceId)).dumps.utf8ByteSize ≤
      cfg.task_output_payload_size_threshold_kb * 1024) :
    get_workflow_context w fuel task.workflowInstanceId eff =
      some ({ eff with cacheReads := eff.cacheReads ++
                [get_workflow_context_cache_key task.workflowInstanceId] },
            .error (.contextNotFound task.workflowInstanceId))
    ∧ callback_wrapper cfg w fuel callback task st eff =
        some ({ st with tasks := dictErase st.tasks task.taskId },
          { eff with
              cacheReads := eff.cacheReads ++
                [get_workflow_context_cache_key task.workflowInstanceId],
              postAttempts := eff.postAttempts ++
                [inlineReport cfg task.workflowInstanceId task.taskId "FAILED"
                  (failedOutput (.contextNotFound task.workflowInstanceId))],
              posts := eff.posts ++
                [inlineReport cfg task.workflowInstanceId task.taskId "FAILED"
                  (failedOutput (.contextNotFound task.workflowInstanceId))] },
          none) := by
  have hreal : get_real_workflow_instance_id w fuel task.workflowInstanceId =
      some task.workflowInstanceId := by
    match fuel, hfuel with
    | fuel + 1, _ =>
      unfold get_real_workflow_instance_id
      rw [hroot]
  have hctx : get_workflow_context w fuel task.workflowInstanceId eff =
      some ({ eff with cacheReads := eff.cacheReads ++
                [get_workflow_context_cache_key task.workflowInstanceId] },
            .error (.contextNotFound task.workflowInstanceId)) := by
    unfold get_workflow_context
    simp only [hreal, hmiss]
  refine ⟨hctx, ?_⟩
  unfold callback_wrapper
  simp only [hctx]
  rw [except_branch_ok cfg w task st _ _ hpost hin hsize]

theorem c7_witness :
    callback_wrapper cfgW wMissW 1 cbW taskW stW effects0 =
      some ({ stW with tasks := dictErase stW.tasks taskW.taskId },
        { effects0 with
            cacheReads := ["workflow:context:w1"],
            postAttempts := [inlineReport cfgW "w1" "t1" "FAILED"
              (failedOutput (.contextNotFound "w1"))],
            posts := [inlineReport cfgW "w1" "t1" "FAILED"
              (failedOutput (.contextNotFound "w1"))] },
        none) :=
  (c7_context_miss_failed_report cfgW wMissW 1 cbW taskW stW effects0
    rfl rfl (by decide) rfl rfl (by decide)).2

/-- C2 counterexample: with the report POST failing, the synchronous path
starts TWO report sends, not at most one — the failing COMPLETED send raises
into the executor's catch-all, which starts a further FAILED send (which also
fails, propagates, and leaves the registry entry in place).  The claim's
"no further report is attempted / at most one report send is ever started"
is therefore false. -/
theorem c2_counterexample :
    (callback_wrapper cfgW wFailW 2 cbW taskW stW effects0).map
        (fun p => (p.2.1.postAttempts.map ReportBody.status, p.2.1.posts.length,
          p.1.tasks.map Prod.fst))
      = some (["COMPLETED", "FAILED"], 0, ["t1"])
    ∧ ¬ (callback_wrapper cfgW wFailW 2 cbW taskW stW effects0).map
          (fun p => p.2.1.postAttempts.length) = some 1 :=
  ⟨rfl, by decide⟩

/-- C2 (amended): when the COMPLETED report call raises on the synchronous
path, the exception is caught by the executor's own catch-all, which starts
exactly one further FAILED report send (with the stringified transport error
in `errMsg`); when that send also raises, the exception propagates out of the
executor, the registry entry is not removed, no report is delivered, and no
third send is started — at most two report sends per task. -/
theorem c2_failed_report_second_attempt (cfg : ClientConfig) (w : World)
    (fuel : Nat) (callback : Handler) (task : Task) (st : ClientState)
    (eff eff1 : Effects) (ctx : Json) (res : Json)
    (hpost : w.postOk = false)
    (hctx : get_workflow_context w fuel task.workflowInstanceId eff = some (eff1, .ok ctx))
    (hcb : callback task ctx = .ret (some res))
    (htruthy : res.truthy = true)
    (hsize : res.dumps.utf8ByteSize ≤ cfg.task_output_payload_size_threshold_kb * 1024)
    (hsize2 : (failedOutput .transportError).dumps.utf8ByteSize ≤
      cfg.task_output_payload_size_threshold_kb * 1024) :
    callback_wrapper cfg w fuel callback task st eff =
      some (st,
        { eff1 with postAttempts := eff1.postAttempts ++
            [inlineReport cfg task.workflowInstanceId task.taskId "COMPLETED" res,
             inlineReport cfg task.workflowInstanceId task.taskId "FAILED"
               (failedOutput .transportError)] },
        some .transportError) := by
  unfold callback_wrapper
  simp only [hctx, hcb, optTruthy, htruthy, if_true]
  rw [update_inline_transport_fail cfg w eff1 task.workflowInstanceId task.taskId
    "COMPLETED" res (Or.inl rfl) htruthy hsize hpost]
  show some (except_branch cfg w task st
    { eff1 with postAttempts := eff1.postAttempts ++
        [inlineReport cfg task.workflowInstanceId task.taskId "COMPLETED" res] }
    .transportError) = _
  rw [except_branch_transport_fail cfg w task st
    { eff1 with postAttempts := eff1.postAttempts ++
        [inlineReport cfg task.workflowInstanceId task.taskId "COMPLETED" res] }
    .transportError hpost hsize2]
  simp [List.append_assoc]

theorem c2_witness :
    callback_wrapper cfgW wFailW 2 cbW taskW stW effects0 =
      some (stW,
        { eff1W with postAttempts :=
            [inlineReport cfgW "w1" "t1" "COMPLETED" resW,
             inlineReport cfgW "w1" "t1" "FAILED" (failedOutput .transportError)] },
        some .transportError) :=
  c2_failed_report_second_attempt cfgW wFailW 2 cbW taskW stW effects0 eff1W
    ctxW resW rfl rfl rfl rfl (by decide) (by decide)

/-- C3 counterexample: the empty mapping is a present `outputData` whose
serialized size (2 bytes) is far below the default threshold, yet the sent
report does NOT carry it inline — `if output_data:` drops a falsy payload
entirely, so the body has neither an `outputData` key nor a storage path. -/
theorem c3_counterexample :
    (Json.obj .nil).dumps.utf8ByteSize ≤
      cfgW.task_output_payload_size_threshold_kb * 1024
    ∧ (update_task_result cfgW wW effects0 "w1" "t1" "COMPLETED"
        (some (.obj .nil)) none none none).1.posts.map
          (fun b => (b.outputData, b.externalOutputPayloadStoragePath))
        = [(none, none)]
    ∧ [((none : Option Json), (none : Option String))] ≠
        [(some (Json.obj .nil), (none : Option String))]
    ∧ (update_task_result cfgW wW effects0 "w1" "t1" "COMPLETED"
        (some (.obj .nil)) none none none).1.uploads = [] := by
  refine ⟨by decide, rfl, ?_, rfl⟩
  simp

/-- C3 (amended): for a present and truthy (non-empty) `outputData`, a
serialized size strictly above `threshold_kb * 1024` bytes yields a report
with an empty inline payload and the task-id-namespaced storage key, with the
bytes uploaded; a size at or below the threshold yields the payload inline,
no storage path and no upload.  A present but falsy `outputData` (such as the
empty mapping) is dropped: the report carries neither field and nothing is
uploaded. -/
theorem c3_output_payload_externalization (cfg : ClientConfig) (w : World)
    (eff : Effects) (wid tid status : String) (od : Json)
    (hstat : status = "COMPLETED" ∨ status = "FAILED")
    (hpost : w.postOk = true) :
    (od.truthy = true →
      cfg.task_output_payload_size_threshold_kb * 1024 < od.dumps.utf8ByteSize →
      update_task_result cfg w eff wid tid status (some od) none none none =
        ({ eff with
            uploads := eff.uploads ++ [("task/output/" ++ tid ++ ".json", od.dumps)],
            postAttempts := eff.postAttempts ++ [externalReport cfg wid tid status],
            posts := eff.posts ++ [externalReport cfg wid tid status] }, none))
    ∧ (od.truthy = true →
      od.dumps.utf8ByteSize ≤ cfg.task_output_payload_size_threshold_kb * 1024 →
      update_task_result cfg w eff wid tid status (some od) none none none =
        ({ eff with
            postAttempts := eff.postAttempts ++ [inlineReport cfg wid tid status od],
            posts := eff.posts ++ [inlineReport cfg wid tid status od] }, none))
    ∧ (od.truthy = false →
      update_task_result cfg w eff wid tid status (some od) none none none =
        ({ eff with
            postAttempts := eff.postAttempts ++ [initialBody cfg wid tid status],
            posts := eff.posts ++ [initialBody cfg wid tid status] }, none))
    ∧ (externalReport cfg wid tid status).outputData = some (.obj .nil)
    ∧ (externalReport cfg wid tid status).externalOutputPayloadStoragePath =
        some ("task/output/" ++ tid ++ ".json")
    ∧ (inlineReport cfg wid tid status od).outputData = some od
    ∧ (inlineReport cfg wid tid status od).externalOutputPayloadStoragePath = none
    ∧ (initialBody cfg wid tid status).outputData = none
    ∧ (initialBody cfg wid tid status).externalOutputPayloadStoragePath = none :=
  ⟨fun h1 h2 => update_external_ok cfg w eff wid tid status od hstat h1 h2 hpost,
   fun h1 h2 => update_inline_ok cfg w eff wid tid status od hstat h1 h2 hpost,
   fun h1 => update_falsy_ok cfg w eff wid tid status od hstat h1 hpost,
   rfl, rfl, rfl, rfl, rfl, rfl⟩

theorem c3_witness :
    update_task_result cfgW wW effects0 "w1" "t1" "COMPLETED" (some resW) none none none =
      ({ effects0 with
          postAttempts := [inlineReport cfgW "w1" "t1" "COMPLETED" resW],
          posts := [inlineReport cfgW "w1" "t1" "COMPLETED" resW] }, none) :=
  (c3_output_payload_externalization cfgW wW effects0 "w1" "t1" "COMPLETED" resW
    (Or.inl rfl) rfl).2.1 rfl (by decide)

theorem set_all_go_ok (cfg : ClientConfig) (w : World)
    (hpost : w.postOk = true)
    (hsz : restartOutput.dumps.utf8ByteSize ≤
      cfg.task_output_payload_size_threshold_kb * 1024) :
    ∀ (l : List (String × Task)) (eff : Effects),
      set_all_go cfg w l eff =
        ({ eff with
            postAttempts := eff.postAttempts ++ l.map (fun p =>
              inlineReport cfg p.2.workflowInstanceId p.1 "FAILED" restartOutput),
            posts := eff.posts ++ l.map (fun p =>
              inlineReport cfg p.2.workflowInstanceId p.1 "FAILED" restartOutput) },
         none)
  | [], eff => by
    simp [set_all_go]
  | (task_id, task) :: rest, eff => by
    unfold set_all_go
    rw [update_inline_ok cfg w eff task.workflowInstanceId task_id "FAILED"
      restartOutput (Or.inr rfl) rfl hsz hpost]
    show set_all_go cfg w rest _ = _
    rw [set_all_go_ok cfg w hpost hsz rest _]
    simp [List.append_assoc]

/-- C10: restart recovery delivers a FAILED report for every entry of the
in-flight registry, with `success: false` and the fixed restart message inside
`outputData.errMsg` — while the report's `reasonForIncompletion` field stays
absent — and the registry itself is left unchanged: no entry is removed. -/
theorem c10_restart_reports_frame (cfg : ClientConfig) (w : World)
    (st : ClientState) (eff : Effects)
    (hpost : w.postOk = true)
    (hthr : 1 ≤ cfg.task_output_payload_size_threshold_kb) :
    set_all_tasks_to_failed_state cfg w st eff =
      (st,
       { eff with
          postAttempts := eff.postAttempts ++ st.tasks.map (fun p =>
            inlineReport cfg p.2.workflowInstanceId p.1 "FAILED" restartOutput),
          posts := eff.posts ++ st.tasks.map (fun p =>
            inlineReport cfg p.2.workflowInstanceId p.1 "FAILED" restartOutput) },
       none)
    ∧ ∀ b ∈ st.tasks.map (fun p =>
        inlineReport cfg p.2.workflowInstanceId p.1 "FAILED" restartOutput),
        b.status = "FAILED" ∧ b.outputData = some restartOutput
        ∧ b.reasonForIncompletion = none := by
  have hsz : restartOutput.dumps.utf8ByteSize ≤
      cfg.task_output_payload_size_threshold_kb * 1024 := by
    have h93 : restartOutput.dumps.utf8ByteSize = 93 := by decide
    omega
  constructor
  · unfold set_all_tasks_to_failed_state
    rw [set_all_go_ok cfg w hpost hsz st.tasks eff]
  · intro b hb
    rw [List.mem_map] at hb
    obtain ⟨p, _, hpb⟩ := hb
    rw [← hpb]
    exact ⟨rfl, rfl, rfl⟩

def task2W : Task := { taskId := "t2", workflowInstanceId := "w2" }

def st2W : ClientState := { tasks := [("t1", taskW), ("t2", task2W)] }

theorem c10_witness :
    set_all_tasks_to_failed_state cfgW wW st2W effects0 =
      (st2W,
       { effects0 with
          postAttempts := [inlineReport cfgW "w1" "t1" "FAILED" restartOutput,
                           inlineReport cfgW "w2" "t2" "FAILED" restartOutput],
          posts := [inlineReport cfgW "w1" "t1" "FAILED" restartOutput,
                    inlineReport cfgW "w2" "t2" "FAILED" restartOutput] },
       none) :=
  (c10_restart_reports_frame cfgW wW st2W effects0 rfl (by decide)).1

end Vines
